import Mathlib

/-!
Verification of the xrplsale Go SDK transport core (client.go, services.go).

The Go sources are shallowly embedded: pure computations become Lean
functions, the mutable client becomes explicit state passing, Go `int` and
`time.Duration` (int64 nanoseconds) become `Int`, byte slices become
`List Nat` (each entry a byte value), and fallible calls return `Option` or
`Except`.  The HTTP layer itself (the resty library) is not part of the
repository; where its behaviour decides a claim the loop is modelled from
the specification and marked as such in the doc comment.
-/

namespace XrplSale

/-! ## Constants (client.go lines 16-39) -/

/-- Version is the SDK version (client.go). -/
def Version : String := "1.0.0"

/-- Nanoseconds per second: Go durations are int64 nanosecond counts. -/
def nsPerSecond : Int := 1000000000

/-- DefaultTimeout is the default request timeout, 30 * time.Second. -/
def DefaultTimeout : Int := 30 * nsPerSecond

/-- DefaultMaxRetries is the default maximum retry attempts. -/
def DefaultMaxRetries : Int := 3

/-- ProductionBaseURL is the production API base URL. -/
def ProductionBaseURL : String := "https://api.xrpl.sale/v1"

/-- TestnetBaseURL is the testnet API base URL. -/
def TestnetBaseURL : String := "https://api-testnet.xrpl.sale/v1"

/-- The Production environment constant (an Environment is a Go string). -/
def Production : String := "production"

/-- The Testnet environment constant. -/
def Testnet : String := "testnet"

/-! ## Configuration (client.go lines 41-51) -/

/-- Config holds the client configuration.  Durations are nanosecond counts;
Go zero values are the defaults of the unset fields. -/
structure Config where
  apiKey : String := ""
  environment : String := ""
  baseURL : String := ""
  timeout : Int := 0
  maxRetries : Int := 0
  retryWaitTime : Int := 0
  webhookSecret : String := ""
  debug : Bool := false
deriving DecidableEq, Repr

/-- First `if` of NewClientWithConfig (client.go lines 78-80): default the
environment to production. -/
def applyEnvDefault (c : Config) : Config :=
  if c.environment = "" then { c with environment := Production } else c

/-- Second `if` (client.go lines 82-88): derive an empty base URL from the
environment. -/
def applyBaseURLDefault (c : Config) : Config :=
  if c.baseURL = "" then
    (if c.environment = Testnet then { c with baseURL := TestnetBaseURL }
     else { c with baseURL := ProductionBaseURL })
  else c

/-- Third `if` (client.go lines 90-92): default the timeout to 30 s. -/
def applyTimeoutDefault (c : Config) : Config :=
  if c.timeout = 0 then { c with timeout := DefaultTimeout } else c

/-- Fourth `if` (client.go lines 94-96): default the retry count to 3. -/
def applyMaxRetriesDefault (c : Config) : Config :=
  if c.maxRetries = 0 then { c with maxRetries := DefaultMaxRetries } else c

/-- Fifth `if` (client.go lines 98-100): default the retry base wait to
1 s. -/
def applyRetryWaitDefault (c : Config) : Config :=
  if c.retryWaitTime = 0 then { c with retryWaitTime := nsPerSecond } else c

/-- The defaulting phase of NewClientWithConfig (client.go lines 77-100):
the five `if` blocks in source order. -/
def applyDefaults (config : Config) : Config :=
  applyRetryWaitDefault (applyMaxRetriesDefault (applyTimeoutDefault
    (applyBaseURLDefault (applyEnvDefault config))))

/-! ## The resty client settings (client.go lines 103-141) -/

/-- SetRetryMaxWaitTime(10 * time.Second) from client.go line 108. -/
def restyMaxWaitTime : Int := 10 * nsPerSecond

/-- The settings the constructor pushes into the resty HTTP client:
base URL, timeout, retry knobs, default headers and the (initially unset)
bearer auth token.  An empty `authToken` means no token has been set. -/
structure HttpSettings where
  baseURL : String := ""
  timeout : Int := 0
  retryCount : Int := 0
  retryWaitTime : Int := 0
  retryMaxWaitTime : Int := 0
  headers : List (String × String) := []
  authToken : String := ""
  debug : Bool := false
deriving DecidableEq, Repr

/-- The three headers set unconditionally by the constructor
(client.go lines 109-111). -/
def defaultHeaders : List (String × String) :=
  [("User-Agent", "XRPL.Sale-Go-SDK/" ++ Version),
   ("Accept", "application/json"),
   ("Content-Type", "application/json")]

/-- Client is the main SDK client: the (defaulted) config, the resty
settings, and the session auth token (client.go lines 53-65). -/
structure Client where
  config : Config := {}
  httpClient : HttpSettings := {}
  authToken : String := ""
deriving DecidableEq, Repr

/-- NewClientWithConfig (client.go lines 76-142): apply defaults, build the
resty client settings, and attach the X-API-Key header only when an API key
was provided. -/
def NewClientWithConfig (config : Config) : Client :=
  let config := applyDefaults config
  let httpClient : HttpSettings :=
    { baseURL := config.baseURL
      timeout := config.timeout
      retryCount := config.maxRetries
      retryWaitTime := config.retryWaitTime
      retryMaxWaitTime := restyMaxWaitTime
      headers := defaultHeaders
      debug := config.debug }
  let httpClient := if config.apiKey ≠ "" then
      { httpClient with headers := httpClient.headers ++ [("X-API-Key", config.apiKey)] }
    else httpClient
  { config := config, httpClient := httpClient }

/-- NewClient (client.go lines 68-73). -/
def NewClient (apiKey : String) : Client :=
  NewClientWithConfig { apiKey := apiKey, environment := Production }

/-- SetAuthToken (client.go lines 145-148): stores the token on the client
and on the resty client (which then sends it as a bearer header). -/
def SetAuthToken (c : Client) (token : String) : Client :=
  { c with authToken := token, httpClient := { c.httpClient with authToken := token } }

/-- The headers resty attaches to an outgoing request: the configured header
map plus, when an auth token has been set, the bearer Authorization header
(resty sends SetAuthToken tokens as Authorization Bearer). -/
def requestHeaders (s : HttpSettings) : List (String × String) :=
  s.headers ++ (if s.authToken ≠ "" then [("Authorization", "Bearer " ++ s.authToken)] else [])

/-! ## One network attempt and the retry policy -/

/-- APIError is the structured decode target for error bodies.  Modelled
from the spec: the type declaration itself (fields message, code, details,
retry-after) lives in a repository file not present under src/; only the
message field is consulted by the transport. -/
structure APIError where
  message : String := ""
  code : String := ""
  details : List (String × String) := []
  retryAfter : Int := 0
deriving DecidableEq, Repr

/-- The observable outcome of one underlying HTTP attempt: a network-level
error (if the call never completed), otherwise a status code, the status
text and the APIError decoded from an error body. -/
structure Attempt where
  netErr : Option String := none
  statusCode : Nat := 0
  statusText : String := ""
  errBody : APIError := {}
deriving DecidableEq, Repr

/-- The retry condition added in NewClientWithConfig (client.go lines
118-122): retry when the call errored or the status code is at least 500. -/
def retryCondition (r : Attempt) : Bool :=
  r.netErr.isSome || decide (500 ≤ r.statusCode)

/-- Modelled from the spec: the resty retry loop (the resty library is not
part of this repository).  `f n` is the outcome of attempt `n`; the loop
re-attempts while `retryCondition` holds and at most `retryCount` retries
remain, and returns the number of attempts made together with the final
outcome. -/
def runRetry (f : Nat → Attempt) : Nat → Nat → Nat × Attempt
  | 0, i => (i + 1, f i)
  | n + 1, i =>
    let a := f i
    if retryCondition a then runRetry f n (i + 1) else (i + 1, a)

/-- Modelled from the spec: execute a request with up to `retryCount`
retries after the first attempt. -/
def executeWithRetry (retryCount : Nat) (f : Nat → Attempt) : Nat × Attempt :=
  runRetry f retryCount 0

/-- Modelled from the spec: the wait before retry number `n + 1`, an
increasing backoff starting from the configured base wait and capped by the
maximum wait ceiling (SetRetryWaitTime / SetRetryMaxWaitTime). -/
def backoffWait (base : Int) (n : Nat) : Int :=
  min (base * 2 ^ n) restyMaxWaitTime

/-! ## Error classification (Request and Get, client.go lines 151-222) -/

/-- The errors the transport can return to a caller. -/
inductive RequestError where
  | network (e : String)
  | unsupportedMethod (m : String)
  | api (e : APIError)
  | generic (status : Nat) (statusText : String)
  | genericGet (status : Nat)
deriving DecidableEq, Repr

/-- A resty response is flagged as an error when its status code is
greater than 399. -/
def respIsError (r : Attempt) : Bool := decide (399 < r.statusCode)

/-- The five verbs of the Request dispatch switch (client.go lines
170-183). -/
def supportedMethods : List String := ["GET", "POST", "PUT", "PATCH", "DELETE"]

/-- The tail of Request (client.go lines 185-197): surface a network error
as-is; on an error-flagged response return the decoded APIError when its
message is non-empty and otherwise a generic error carrying the status code
and status text; on a non-error response return no error. -/
def finishRequest (r : Attempt) : Option RequestError :=
  match r.netErr with
  | some e => some (RequestError.network e)
  | none =>
    if respIsError r then
      if r.errBody.message ≠ "" then some (RequestError.api r.errBody)
      else some (RequestError.generic r.statusCode r.statusText)
    else none

/-- The tail of Get (client.go lines 208-221): identical precedence, with
the generic fallback carrying only the status code. -/
def finishGet (r : Attempt) : Option RequestError :=
  match r.netErr with
  | some e => some (RequestError.network e)
  | none =>
    if respIsError r then
      if r.errBody.message ≠ "" then some (RequestError.api r.errBody)
      else some (RequestError.genericGet r.statusCode)
    else none

/-- Request (client.go lines 151-198): an unsupported verb fails before any
network attempt; otherwise the attempt sequence runs under the retry loop
and the final outcome is classified.  Returns the number of network
attempts made together with the error result. -/
def Request (c : Client) (method : String) (f : Nat → Attempt) :
    Nat × Option RequestError :=
  if method ∈ supportedMethods then
    let (n, r) := executeWithRetry c.httpClient.retryCount.toNat f
    (n, finishRequest r)
  else (0, some (RequestError.unsupportedMethod method))

/-- Get (client.go lines 201-222): always a GET, so no verb dispatch; the
attempt sequence runs under the retry loop and the final outcome is
classified by the Get tail. -/
def Get (c : Client) (f : Nat → Attempt) : Nat × Option RequestError :=
  let (n, r) := executeWithRetry c.httpClient.retryCount.toNat f
  (n, finishGet r)

/-! ## Auth facade (services.go lines 190-209) -/

/-- AuthResponse.  Modelled from the spec: the type declaration lives in a
repository file not present under src/; the transport consults only the
token field. -/
structure AuthResponse where
  token : String := ""
deriving DecidableEq, Repr

/-- The state transition of Authenticate (services.go lines 191-198): when
the POST to /auth/wallet returned no error and the decoded response carries
a non-empty token, store it via SetAuthToken; otherwise leave the client
untouched. -/
def Authenticate (c : Client) (err : Option String) (response : AuthResponse) : Client :=
  if err = none ∧ response.token ≠ "" then SetAuthToken c response.token else c

/-- The state transition of Refresh (services.go lines 201-209): same
success-only token update as Authenticate. -/
def Refresh (c : Client) (err : Option String) (response : AuthResponse) : Client :=
  if err = none ∧ response.token ≠ "" then SetAuthToken c response.token else c

/-! ## Projects list options (services.go lines 14-47) -/

/-- ListProjectsOptions (services.go lines 15-21); Go zero values stand for
unset fields. -/
structure ListProjectsOptions where
  status : String := ""
  page : Int := 0
  limit : Int := 0
  sortBy : String := ""
  sortOrder : String := ""
deriving DecidableEq, Repr

/-- The query-parameter map assembled by ProjectsService.List (services.go
lines 24-42), as an association list in insertion order: each field is
included only when non-zero / non-empty, numbers formatted in decimal. -/
def projectsListParams (opts : Option ListProjectsOptions) : List (String × String) :=
  match opts with
  | none => []
  | some o =>
    (if o.status ≠ "" then [("status", o.status)] else []) ++
    (if 0 < o.page then [("page", toString o.page)] else []) ++
    (if 0 < o.limit then [("limit", toString o.limit)] else []) ++
    (if o.sortBy ≠ "" then [("sort_by", o.sortBy)] else []) ++
    (if o.sortOrder ≠ "" then [("sort_order", o.sortOrder)] else [])

/-! ## SHA-256 and HMAC (the Go crypto/sha256 and crypto/hmac primitives
used by VerifyWebhookSignature, client.go lines 245-255).  Bytes are `Nat`
values below 256 and 32-bit words are `Nat` values below 2^32, with
explicit reduction modulo 2^32 where Go words overflow. -/

/-- Two to the 32nd, the word modulus. -/
def w32 : Nat := 4294967296

/-- Addition modulo 2^32. -/
def add32 (a b : Nat) : Nat := (a + b) % w32

/-- Right rotation of a 32-bit word. -/
def rotr32 (x n : Nat) : Nat := ((x >>> n) ||| (x <<< (32 - n))) % w32

/-- The SHA-256 big sigma-0 function. -/
def bigS0 (x : Nat) : Nat := rotr32 x 2 ^^^ rotr32 x 13 ^^^ rotr32 x 22

/-- The SHA-256 big sigma-1 function. -/
def bigS1 (x : Nat) : Nat := rotr32 x 6 ^^^ rotr32 x 11 ^^^ rotr32 x 25

/-- The SHA-256 small sigma-0 function. -/
def smallS0 (x : Nat) : Nat := rotr32 x 7 ^^^ rotr32 x 18 ^^^ (x >>> 3)

/-- The SHA-256 small sigma-1 function. -/
def smallS1 (x : Nat) : Nat := rotr32 x 17 ^^^ rotr32 x 19 ^^^ (x >>> 10)

/-- The SHA-256 choice function; 32-bit complement as xor with ones. -/
def chF (x y z : Nat) : Nat := (x &&& y) ^^^ ((x ^^^ 4294967295) &&& z)

/-- The SHA-256 majority function. -/
def majF (x y z : Nat) : Nat := (x &&& y) ^^^ (x &&& z) ^^^ (y &&& z)

/-- The 64 SHA-256 round constants. -/
def sha256K : List Nat :=
  [1116352408, 1899447441, 3049323471, 3921009573, 961987163,
   1508970993, 2453635748, 2870763221, 3624381080, 310598401,
   607225278, 1426881987, 1925078388, 2162078206, 2614888103,
   3248222580, 3835390401, 4022224774, 264347078, 604807628,
   770255983, 1249150122, 1555081692, 1996064986, 2554220882,
   2821834349, 2952996808, 3210313671, 3336571891, 3584528711,
   113926993, 338241895, 666307205, 773529912, 1294757372,
   1396182291, 1695183700, 1986661051, 2177026350, 2456956037,
   2730485921, 2820302411, 3259730800, 3345764771, 3516065817,
   3600352804, 4094571909, 275423344, 430227734, 506948616,
   659060556, 883997877, 958139571, 1322822218, 1537002063,
   1747873779, 1955562222, 2024104815, 2227730452, 2361852424,
   2428436474, 2756734187, 3204031479, 3329325298]

/-- The eight-word SHA-256 working state. -/
structure Hash8 where
  a : Nat
  b : Nat
  c : Nat
  d : Nat
  e : Nat
  f : Nat
  g : Nat
  h : Nat
deriving DecidableEq, Repr

/-- The SHA-256 initial hash value. -/
def sha256Init : Hash8 :=
  { a := 1779033703, b := 3144134277, c := 1013904242, d := 2773480762,
    e := 1359893119, f := 2600822924, g := 528734635, h := 1541459225 }

/-- A value as `k` big-endian bytes. -/
def beBytes : Nat → Nat → List Nat
  | 0, _ => []
  | k + 1, v => beBytes k (v / 256) ++ [v % 256]

/-- SHA-256 padding: append 0x80, zeros to 56 mod 64, and the 64-bit
big-endian message bit length. -/
def padBytes (msg : List Nat) : List Nat :=
  let len := msg.length
  let r := len % 64
  let zeros := if r < 56 then 55 - r else 119 - r
  msg ++ 128 :: List.replicate zeros 0 ++ beBytes 8 (len * 8)

/-- Big-endian 32-bit words from bytes. -/
def toWords : List Nat → List Nat
  | b0 :: b1 :: b2 :: b3 :: rest =>
      (((b0 * 256 + b1) * 256 + b2) * 256 + b3) :: toWords rest
  | _ => []

/-- Split a word list into 16-word blocks. -/
def chunk16 : List Nat → List (List Nat)
  | w0 :: w1 :: w2 :: w3 :: w4 :: w5 :: w6 :: w7 ::
    w8 :: w9 :: w10 :: w11 :: w12 :: w13 :: w14 :: w15 :: rest =>
      [w0, w1, w2, w3, w4, w5, w6, w7, w8, w9, w10, w11, w12, w13, w14, w15] ::
        chunk16 rest
  | _ => []

/-- Extend the message schedule; `acc` holds the words produced so far,
most recent first. -/
def extendSchedule (acc : List Nat) : Nat → List Nat
  | 0 => acc.reverse
  | n + 1 =>
    let word := add32 (add32 (smallS1 (acc.getD 1 0)) (acc.getD 6 0))
      (add32 (smallS0 (acc.getD 14 0)) (acc.getD 15 0))
    extendSchedule (word :: acc) n

/-- The 64-word message schedule of one block. -/
def schedule (block : List Nat) : List Nat := extendSchedule block.reverse 48

/-- One SHA-256 compression round. -/
def sha256Round (s : Hash8) (k w : Nat) : Hash8 :=
  let t1 := add32 (add32 (add32 s.h (bigS1 s.e)) (add32 (chF s.e s.f s.g) k)) w
  let t2 := add32 (bigS0 s.a) (majF s.a s.b s.c)
  { a := add32 t1 t2, b := s.a, c := s.b, d := s.c,
    e := add32 s.d t1, f := s.e, g := s.f, h := s.g }

/-- Compress one 16-word block into the running hash. -/
def compressBlock (h0 : Hash8) (block : List Nat) : Hash8 :=
  let s := (sha256K.zip (schedule block)).foldl
    (fun s kw => sha256Round s kw.1 kw.2) h0
  { a := add32 h0.a s.a, b := add32 h0.b s.b, c := add32 h0.c s.c,
    d := add32 h0.d s.d, e := add32 h0.e s.e, f := add32 h0.f s.f,
    g := add32 h0.g s.g, h := add32 h0.h s.h }

/-- SHA-256 of a byte list, as its 32 digest bytes. -/
def sha256 (msg : List Nat) : List Nat :=
  let hf := (chunk16 (toWords (padBytes msg))).foldl compressBlock sha256Init
  beBytes 4 hf.a ++ beBytes 4 hf.b ++ beBytes 4 hf.c ++ beBytes 4 hf.d ++
    beBytes 4 hf.e ++ beBytes 4 hf.f ++ beBytes 4 hf.g ++ beBytes 4 hf.h

/-- HMAC-SHA256 with the standard 64-byte block size, as Go crypto/hmac
computes it. -/
def hmacSha256 (key msg : List Nat) : List Nat :=
  let k0 := if 64 < key.length then sha256 key else key
  let kp := k0 ++ List.replicate (64 - k0.length) 0
  sha256 ((kp.map (fun b => b ^^^ 92)) ++ sha256 ((kp.map (fun b => b ^^^ 54)) ++ msg))

/-- A hexadecimal digit character (lowercase, as Go hex.EncodeToString). -/
def hexDigitChar (n : Nat) : Char := Char.ofNat (if n < 10 then 48 + n else 87 + n)

/-- Lowercase hex of a byte list (Go hex.EncodeToString). -/
def hexOfBytes (bs : List Nat) : String :=
  String.mk ((bs.map (fun b => [hexDigitChar (b / 16 % 16), hexDigitChar (b % 16)])).flatten)

/-- The UTF-8 encoding of one character, as Go produces for []byte(s). -/
def charUtf8 (c : Char) : List Nat :=
  let n := c.toNat
  if n < 128 then [n]
  else if n < 2048 then [192 + n / 64, 128 + n % 64]
  else if n < 65536 then [224 + n / 4096, 128 + n / 64 % 64, 128 + n % 64]
  else [240 + n / 262144, 128 + n / 4096 % 64, 128 + n / 64 % 64, 128 + n % 64]

/-- The UTF-8 bytes of a string, Go's []byte(s). -/
def utf8Bytes (s : String) : List Nat := (s.data.map charUtf8).flatten

/-- The expected signature VerifyWebhookSignature computes (client.go lines
250-252): the fixed sha256= scheme tag followed by the lowercase hex
HMAC-SHA256 of the payload under the secret. -/
def signWebhookPayload (secret : String) (payload : List Nat) : String :=
  "sha256=" ++ hexOfBytes (hmacSha256 (utf8Bytes secret) payload)

/-- VerifyWebhookSignature (client.go lines 245-255): false when no secret
is configured, otherwise compare the expected signature with the provided
one.  Go compares the UTF-8 bytes of the two strings with hmac.Equal, which
agrees with string equality because UTF-8 encoding is injective; the
constant-time aspect of the comparison is a timing property outside this
embedding. -/
def VerifyWebhookSignature (c : Client) (payload : List Nat) (signature : String) : Bool :=
  if c.config.webhookSecret = "" then false
  else signWebhookPayload c.config.webhookSecret payload == signature

/-! ## Webhook events and their JSON codec (ParseWebhookEvent, client.go
lines 257-264).  The event struct lives in a repository file not present
under src/ and the codec is Go encoding/json; both are modelled from the
spec: an event is a string type tag plus an untyped key/value data payload,
serialized as canonical JSON without whitespace, and parsing rejects
anything that is not such a document. -/

/-- Modelled from the spec: a JSON value of the shapes the untyped data
payload carries — string, integer, boolean or null. -/
inductive JValue where
  | jstr (s : String)
  | jint (n : Int)
  | jbool (b : Bool)
  | jnull
deriving DecidableEq, Repr

/-- Modelled from the spec: WebhookEvent is a type tag and an untyped
key/value payload, the map held as an association list in serialization
order. -/
structure WebhookEvent where
  type : String
  data : List (String × JValue)
deriving DecidableEq, Repr

/-- The JSON double quote character. -/
def quoteChar : Char := Char.ofNat 34

/-- The JSON opening brace character. -/
def lbraceChar : Char := Char.ofNat 123

/-- The JSON closing brace character. -/
def rbraceChar : Char := Char.ofNat 125

/-- The JSON comma separator. -/
def commaChar : Char := ','

/-- The JSON name separator. -/
def colonChar : Char := ':'

/-- The JSON minus sign. -/
def minusChar : Char := '-'

/-- The characters of the literal true. -/
def trueChars : List Char := ['t', 'r', 'u', 'e']

/-- The characters of the literal false. -/
def falseChars : List Char := ['f', 'a', 'l', 's', 'e']

/-- The characters of the literal null. -/
def nullChars : List Char := ['n', 'u', 'l', 'l']

/-- The quoted type object key. -/
def typeKeyChars : List Char := [quoteChar, 't', 'y', 'p', 'e', quoteChar]

/-- The quoted data object key. -/
def dataKeyChars : List Char := [quoteChar, 'd', 'a', 't', 'a', quoteChar]

/-- The decimal digit character for a digit value. -/
def digitChar (d : Nat) : Char := Char.ofNat (48 + d)

/-- The digit value of a decimal digit character. -/
def digitVal (c : Char) : Nat := c.toNat - 48

/-- Whether a character is a decimal digit. -/
def isDigitChar (c : Char) : Bool := decide (48 ≤ c.toNat) && decide (c.toNat ≤ 57)

/-- The decimal digits of a natural number, most significant first. -/
def natToChars (n : Nat) : List Char :=
  if n < 10 then [digitChar n]
  else natToChars (n / 10) ++ [digitChar (n % 10)]
decreasing_by exact Nat.div_lt_self (by omega) (by omega)

/-- The decimal rendering of an integer. -/
def intToChars (i : Int) : List Char :=
  if i < 0 then minusChar :: natToChars i.natAbs else natToChars i.toNat

/-- A JSON string literal; escape-free strings only, see `plainString`. -/
def serializeString (s : String) : List Char := quoteChar :: (s.data ++ [quoteChar])

/-- The canonical serialization of a JSON value. -/
def serializeJValue : JValue → List Char
  | JValue.jstr s => serializeString s
  | JValue.jint n => intToChars n
  | JValue.jbool true => trueChars
  | JValue.jbool false => falseChars
  | JValue.jnull => nullChars

/-- One serialized key/value member. -/
def serializePair (p : String × JValue) : List Char :=
  serializeString p.1 ++ colonChar :: serializeJValue p.2

/-- Comma-joined serialized members. -/
def serializePairs : List (String × JValue) → List Char
  | [] => []
  | [p] => serializePair p
  | p :: rest => serializePair p ++ commaChar :: serializePairs rest

/-- Modelled from the spec: the canonical JSON document Go encoding/json
produces for a webhook event — a two-member object with the type tag and
the data object. -/
def serializeEvent (e : WebhookEvent) : List Char :=
  [lbraceChar] ++ typeKeyChars ++ [colonChar] ++ serializeString e.type ++
    [commaChar] ++ dataKeyChars ++ [colonChar] ++ [lbraceChar] ++
    serializePairs e.data ++ [rbraceChar] ++ [rbraceChar]

/-- Strip an expected literal off the front of the input. -/
def stripLit : List Char → List Char → Option (List Char)
  | [], l => some l
  | _ :: _, [] => none
  | c :: cs, d :: ds => if c = d then stripLit cs ds else none

/-- Read string-body characters up to the closing quote. -/
def takeStr : List Char → Option (List Char × List Char)
  | [] => none
  | c :: cs =>
    if c = quoteChar then some ([], cs)
    else
      match takeStr cs with
      | some (s, r) => some (c :: s, r)
      | none => none

/-- Parse a JSON string literal. -/
def parseJString : List Char → Option (String × List Char)
  | c :: cs =>
      if c = quoteChar then (takeStr cs).map (fun p => (String.mk p.1, p.2)) else none
  | [] => none

/-- Consume decimal digits greedily into an accumulator. -/
def parseDigits : List Char → Nat → Nat × List Char
  | c :: cs, acc =>
      if isDigitChar c then parseDigits cs (acc * 10 + digitVal c) else (acc, c :: cs)
  | [], acc => (acc, [])

/-- Parse a natural number, requiring at least one digit. -/
def parseNatChars : List Char → Option (Nat × List Char)
  | c :: cs => if isDigitChar c then some (parseDigits (c :: cs) 0) else none
  | [] => none

/-- Parse one JSON value of the supported shapes. -/
def parseJValue (l : List Char) : Option (JValue × List Char) :=
  match l with
  | [] => none
  | c :: cs =>
    if c = quoteChar then (parseJString l).map (fun p => (JValue.jstr p.1, p.2))
    else if c = minusChar then
      match parseNatChars cs with
      | some (n, r) => some (JValue.jint (-(n : Int)), r)
      | none => none
    else if isDigitChar c then
      match parseNatChars l with
      | some (n, r) => some (JValue.jint (n : Int), r)
      | none => none
    else
      match stripLit trueChars l with
      | some r => some (JValue.jbool true, r)
      | none =>
        match stripLit falseChars l with
        | some r => some (JValue.jbool false, r)
        | none =>
          match stripLit nullChars l with
          | some r => some (JValue.jnull, r)
          | none => none

/-- Parse one or more comma-separated object members; the fuel bounds the
member count. -/
def parsePairs : Nat → List Char → Option (List (String × JValue) × List Char)
  | 0, _ => none
  | fuel + 1, l =>
    match parseJString l with
    | none => none
    | some (k, r1) =>
      match r1 with
      | c :: r2 =>
        if c = colonChar then
          match parseJValue r2 with
          | none => none
          | some (v, r3) =>
            match r3 with
            | c2 :: r4 =>
              if c2 = commaChar then
                match parsePairs fuel r4 with
                | some (rest, r5) => some ((k, v) :: rest, r5)
                | none => none
              else some ([(k, v)], r3)
            | [] => some ([(k, v)], [])
        else none
      | [] => none

/-- Parse a whole canonical webhook-event document, rejecting trailing
input. -/
def parseEventChars (l : List Char) : Option WebhookEvent :=
  match stripLit ([lbraceChar] ++ typeKeyChars ++ [colonChar]) l with
  | none => none
  | some r1 =>
    match parseJString r1 with
    | none => none
    | some (ty, r2) =>
      match stripLit ([commaChar] ++ dataKeyChars ++ [colonChar] ++ [lbraceChar]) r2 with
      | none => none
      | some r3 =>
        if r3 = [rbraceChar, rbraceChar] then some { type := ty, data := [] }
        else
          match parsePairs r3.length r3 with
          | none => none
          | some (pairs, r5) =>
            if r5 = [rbraceChar, rbraceChar] then some { type := ty, data := pairs }
            else none

/-- The decoding-failure message carried by the error return. -/
def jsonDecodeErr : String := "invalid webhook event JSON"

/-- ParseWebhookEvent (client.go lines 257-264): decode the payload into a
webhook event, or propagate the decoding error — never a silent default
value. -/
def ParseWebhookEvent (payload : List Char) : Except String WebhookEvent :=
  match parseEventChars payload with
  | some e => Except.ok e
  | none => Except.error jsonDecodeErr

/-- A string is plain when it round-trips without JSON escaping: no quote,
no backslash, no control characters. -/
def plainString (s : String) : Bool :=
  s.data.all (fun c => c != quoteChar && c != Char.ofNat 92 && decide (31 < c.toNat))

/-- A value is plain when any string inside it is plain. -/
def plainJValue : JValue → Bool
  | JValue.jstr s => plainString s
  | _ => true

/-- A well-formed event: its type tag, keys and string values are all
plain. -/
def wellFormedEvent (e : WebhookEvent) : Bool :=
  plainString e.type && e.data.all (fun p => plainString p.1 && plainJValue p.2)

/-- A fixed attempt used to instantiate universally quantified claims. -/
def attempt404 : Attempt := { statusCode := 404 }

/-- A fixed webhook event used to instantiate universally quantified
claims. -/
def sampleEvent : WebhookEvent :=
  { type := "investment.created",
    data := [("amount", JValue.jstr "100"), ("count", JValue.jint (-42)),
             ("ok", JValue.jbool true), ("note", JValue.jnull)] }

/-! ## Helper lemmas -/

/-- The environment step as a single field update. -/
theorem applyEnvDefault_eq (c : Config) :
    applyEnvDefault c =
      { c with environment := if c.environment = "" then Production else c.environment } := by
  unfold applyEnvDefault
  split_ifs <;> simp_all

/-- The base-URL step as a single field update. -/
theorem applyBaseURLDefault_eq (c : Config) :
    applyBaseURLDefault c =
      { c with baseURL := if c.baseURL = "" then
          (if c.environment = Testnet then TestnetBaseURL else ProductionBaseURL)
        else c.baseURL } := by
  unfold applyBaseURLDefault
  split_ifs <;> simp_all

/-- The timeout step as a single field update. -/
theorem applyTimeoutDefault_eq (c : Config) :
    applyTimeoutDefault c =
      { c with timeout := if c.timeout = 0 then DefaultTimeout else c.timeout } := by
  unfold applyTimeoutDefault
  split_ifs <;> simp_all

/-- The max-retries step as a single field update. -/
theorem applyMaxRetriesDefault_eq (c : Config) :
    applyMaxRetriesDefault c =
      { c with maxRetries := if c.maxRetries = 0 then DefaultMaxRetries else c.maxRetries } := by
  unfold applyMaxRetriesDefault
  split_ifs <;> simp_all

/-- The retry-wait step as a single field update. -/
theorem applyRetryWaitDefault_eq (c : Config) :
    applyRetryWaitDefault c =
      { c with retryWaitTime :=
          if c.retryWaitTime = 0 then nsPerSecond else c.retryWaitTime } := by
  unfold applyRetryWaitDefault
  split_ifs <;> simp_all

/-- The whole defaulting phase, flattened to one record: each field is
defaulted independently, the base URL consulting the defaulted
environment. -/
theorem applyDefaults_eq (c : Config) :
    applyDefaults c =
      { apiKey := c.apiKey
        environment := if c.environment = "" then Production else c.environment
        baseURL := if c.baseURL = "" then
            (if (if c.environment = "" then Production else c.environment) = Testnet
             then TestnetBaseURL else ProductionBaseURL)
          else c.baseURL
        timeout := if c.timeout = 0 then DefaultTimeout else c.timeout
        maxRetries := if c.maxRetries = 0 then DefaultMaxRetries else c.maxRetries
        retryWaitTime := if c.retryWaitTime = 0 then nsPerSecond else c.retryWaitTime
        webhookSecret := c.webhookSecret
        debug := c.debug } := by
  simp [applyDefaults, applyEnvDefault_eq, applyBaseURLDefault_eq, applyTimeoutDefault_eq,
    applyMaxRetriesDefault_eq, applyRetryWaitDefault_eq]

/-- The defaulting phase never changes the API key. -/
theorem applyDefaults_apiKey (cfg : Config) : (applyDefaults cfg).apiKey = cfg.apiKey := by
  simp [applyDefaults_eq]

/-- The defaulted timeout: 30 s when unset, otherwise unchanged. -/
theorem applyDefaults_timeout (cfg : Config) :
    (applyDefaults cfg).timeout = if cfg.timeout = 0 then DefaultTimeout else cfg.timeout := by
  simp [applyDefaults_eq]

/-- The defaulted retry count: 3 when unset, otherwise unchanged. -/
theorem applyDefaults_maxRetries (cfg : Config) :
    (applyDefaults cfg).maxRetries =
      if cfg.maxRetries = 0 then DefaultMaxRetries else cfg.maxRetries := by
  simp [applyDefaults_eq]

/-- The defaulted retry base wait: 1 s when unset, otherwise unchanged. -/
theorem applyDefaults_retryWaitTime (cfg : Config) :
    (applyDefaults cfg).retryWaitTime =
      if cfg.retryWaitTime = 0 then nsPerSecond else cfg.retryWaitTime := by
  simp [applyDefaults_eq]

/-- The defaulted base URL is never empty. -/
theorem applyDefaults_baseURL_ne (cfg : Config) : (applyDefaults cfg).baseURL ≠ "" := by
  simp only [applyDefaults_eq]
  split_ifs <;> simp_all [ProductionBaseURL, TestnetBaseURL]

/-- An empty base URL with environment unset or production defaults to the
production endpoint. -/
theorem applyDefaults_baseURL_prod (cfg : Config) (hb : cfg.baseURL = "")
    (he : cfg.environment = "" ∨ cfg.environment = Production) :
    (applyDefaults cfg).baseURL = ProductionBaseURL := by
  simp only [applyDefaults_eq]
  rcases he with he | he <;> simp_all [Production, Testnet]

/-- An empty base URL with the testnet environment defaults to the testnet
endpoint. -/
theorem applyDefaults_baseURL_testnet (cfg : Config) (hb : cfg.baseURL = "")
    (he : cfg.environment = Testnet) :
    (applyDefaults cfg).baseURL = TestnetBaseURL := by
  simp only [applyDefaults_eq]
  simp_all [Production, Testnet]

/-- The constructor, flattened to one record: defaulted config, resty
settings copied from it, the X-API-Key header exactly when an API key was
configured, and no auth token yet. -/
theorem NewClientWithConfig_eq (cfg : Config) :
    NewClientWithConfig cfg =
      { config := applyDefaults cfg
        httpClient :=
          { baseURL := (applyDefaults cfg).baseURL
            timeout := (applyDefaults cfg).timeout
            retryCount := (applyDefaults cfg).maxRetries
            retryWaitTime := (applyDefaults cfg).retryWaitTime
            retryMaxWaitTime := restyMaxWaitTime
            headers := defaultHeaders ++
              (if cfg.apiKey ≠ "" then [("X-API-Key", cfg.apiKey)] else [])
            authToken := ""
            debug := (applyDefaults cfg).debug }
        authToken := "" } := by
  simp only [NewClientWithConfig, applyDefaults_apiKey]
  split_ifs <;> simp_all

/-- The constructor stores exactly the defaulted configuration. -/
theorem config_NewClientWithConfig (cfg : Config) :
    (NewClientWithConfig cfg).config = applyDefaults cfg := by
  simp [NewClientWithConfig_eq]

/-- The resty retry count is the defaulted max-retry count. -/
theorem retryCount_NewClientWithConfig (cfg : Config) :
    (NewClientWithConfig cfg).httpClient.retryCount = (applyDefaults cfg).maxRetries := by
  simp [NewClientWithConfig_eq]

/-- The resty timeout is the defaulted timeout. -/
theorem timeout_NewClientWithConfig (cfg : Config) :
    (NewClientWithConfig cfg).httpClient.timeout = (applyDefaults cfg).timeout := by
  simp [NewClientWithConfig_eq]

/-- The resty retry base wait is the defaulted one. -/
theorem retryWaitTime_NewClientWithConfig (cfg : Config) :
    (NewClientWithConfig cfg).httpClient.retryWaitTime = (applyDefaults cfg).retryWaitTime := by
  simp [NewClientWithConfig_eq]

/-- The header list pushed into the resty client: the three fixed headers,
plus X-API-Key exactly when an API key was configured. -/
theorem headers_NewClientWithConfig (cfg : Config) :
    (NewClientWithConfig cfg).httpClient.headers =
      defaultHeaders ++ (if cfg.apiKey ≠ "" then [("X-API-Key", cfg.apiKey)] else []) := by
  simp [NewClientWithConfig_eq]

/-- The constructor leaves the resty auth token unset. -/
theorem authToken_NewClientWithConfig (cfg : Config) :
    (NewClientWithConfig cfg).httpClient.authToken = "" := by
  simp [NewClientWithConfig_eq]

/-- The retry loop starting at attempt `i` with `n` retries left performs at
most `n + 1` further attempts. -/
theorem runRetry_fst_le (f : Nat → Attempt) :
    ∀ (n i : Nat), (runRetry f n i).1 ≤ i + n + 1 := by
  intro n
  induction n with
  | zero => intro i; simp [runRetry]
  | succ n ih =>
    intro i
    simp only [runRetry]
    split
    · have := ih (i + 1)
      omega
    · omega

/-- When the first attempt is not retry-eligible the loop stops at once. -/
theorem runRetry_stop (f : Nat → Attempt) (n i : Nat)
    (h : retryCondition (f i) = false) : runRetry f n i = (i + 1, f i) := by
  cases n <;> simp [runRetry, h]

/-- Stripping a literal off itself-plus-rest leaves rest. -/
theorem stripLit_append (lit rest : List Char) : stripLit lit (lit ++ rest) = some rest := by
  induction lit with
  | nil => simp [stripLit]
  | cons c cs ih => simp [stripLit, ih]

/-- Reading a quote-free body up to its closing quote returns the body. -/
theorem takeStr_append (s rest : List Char) (h : ∀ c ∈ s, ¬(c = quoteChar)) :
    takeStr (s ++ quoteChar :: rest) = some (s, rest) := by
  induction s with
  | nil => simp [takeStr]
  | cons c cs ih =>
    have hc := h c (by simp)
    simp [takeStr, hc, ih (fun d hd => h d (by simp [hd]))]

/-- A plain string contains no quote characters. -/
theorem plainString_no_quote (s : String) (hp : plainString s = true) :
    ∀ c ∈ s.data, ¬(c = quoteChar) := by
  simp only [plainString, List.all_eq_true, Bool.and_eq_true, bne_iff_ne, ne_eq] at hp
  intro c hc
  exact (hp c hc).1.1

/-- Parsing the serialization of a plain string returns the string. -/
theorem parseJString_serialize (s : String) (rest : List Char) (hp : plainString s = true) :
    parseJString (serializeString s ++ rest) = some (s, rest) := by
  have h1 : serializeString s ++ rest = quoteChar :: (s.data ++ quoteChar :: rest) := by
    simp [serializeString]
  rw [h1]
  simp [parseJString, takeStr_append s.data rest (plainString_no_quote s hp)]

/-- A digit value below ten renders as a decimal digit character. -/
theorem isDigitChar_digitChar (d : Nat) (h : d < 10) : isDigitChar (digitChar d) = true := by
  interval_cases d <;> decide

/-- Rendering then reading a digit below ten is the identity. -/
theorem digitVal_digitChar (d : Nat) (h : d < 10) : digitVal (digitChar d) = d := by
  interval_cases d <;> decide

/-- Every character of a rendered natural number is a digit. -/
theorem natToChars_digits (n : Nat) : ∀ c ∈ natToChars n, isDigitChar c = true := by
  induction n using Nat.strong_induction_on with
  | _ n ih =>
    rw [natToChars]
    split_ifs with h
    · intro c hc
      simp only [List.mem_singleton] at hc
      subst hc
      exact isDigitChar_digitChar n h
    · intro c hc
      rw [List.mem_append] at hc
      rcases hc with hc | hc
      · exact ih (n / 10) (Nat.div_lt_self (by omega) (by omega)) c hc
      · simp only [List.mem_singleton] at hc
        subst hc
        exact isDigitChar_digitChar (n % 10) (Nat.mod_lt _ (by omega))

/-- A rendered natural number has at least one digit. -/
theorem natToChars_ne_nil (n : Nat) : natToChars n ≠ [] := by
  rw [natToChars]
  split_ifs <;> simp

/-- Folding the digit-accumulation step over a rendered number recovers the
number on top of the shifted accumulator. -/
theorem foldl_natToChars (n : Nat) : ∀ acc : Nat,
    (natToChars n).foldl (fun a c => a * 10 + digitVal c) acc =
      acc * 10 ^ (natToChars n).length + n := by
  induction n using Nat.strong_induction_on with
  | _ n ih =>
    intro acc
    rw [natToChars]
    split_ifs with h
    · simp [digitVal_digitChar n h]
    · rw [List.foldl_append, List.length_append]
      rw [ih (n / 10) (Nat.div_lt_self (by omega) (by omega))]
      simp only [List.foldl_cons, List.foldl_nil, List.length_singleton]
      rw [digitVal_digitChar (n % 10) (Nat.mod_lt _ (by omega))]
      have hdm : n / 10 * 10 + n % 10 = n := by omega
      calc (acc * 10 ^ (natToChars (n / 10)).length + n / 10) * 10 + n % 10
          = acc * (10 ^ (natToChars (n / 10)).length * 10) + (n / 10 * 10 + n % 10) := by ring
        _ = acc * 10 ^ ((natToChars (n / 10)).length + 1) + n := by rw [hdm, pow_succ]

/-- Greedy digit consumption stops exactly at the first non-digit. -/
theorem parseDigits_append (ds : List Char) (rest : List Char)
    (hd : ∀ c ∈ ds, isDigitChar c = true)
    (hr : ∀ c ∈ rest.head?, isDigitChar c = false) :
    ∀ acc, parseDigits (ds ++ rest) acc =
      (ds.foldl (fun a c => a * 10 + digitVal c) acc, rest) := by
  induction ds with
  | nil =>
    intro acc
    cases rest with
    | nil => simp [parseDigits]
    | cons c cs =>
      have hc := hr c (by simp)
      simp [parseDigits, hc]
  | cons c cs ih =>
    intro acc
    have hc := hd c (by simp)
    simp [parseDigits, hc, ih (fun d hdm => hd d (by simp [hdm])) (acc * 10 + digitVal c)]

/-- Parsing the rendering of a natural number followed by a non-digit
returns the number. -/
theorem parseNatChars_serialize (n : Nat) (rest : List Char)
    (hr : ∀ c ∈ rest.head?, isDigitChar c = false) :
    parseNatChars (natToChars n ++ rest) = some (n, rest) := by
  obtain ⟨c, cs, hcc⟩ : ∃ c cs, natToChars n = c :: cs := by
    cases h : natToChars n with
    | nil => exact absurd h (natToChars_ne_nil n)
    | cons c cs => exact ⟨c, cs, rfl⟩
  have hc : isDigitChar c = true := natToChars_digits n c (by rw [hcc]; simp)
  have hds : ∀ d ∈ c :: cs, isDigitChar d = true := by
    rw [← hcc]; exact natToChars_digits n
  rw [hcc, List.cons_append]
  simp only [parseNatChars, hc, if_true]
  rw [show c :: (cs ++ rest) = (c :: cs) ++ rest from rfl,
    parseDigits_append (c :: cs) rest hds hr 0, ← hcc, foldl_natToChars n 0]
  simp

/-- Stripping fails on a leading mismatch. -/
theorem stripLit_ne (c d : Char) (cs ds : List Char) (h : ¬(c = d)) :
    stripLit (c :: cs) (d :: ds) = none := by
  simp [stripLit, h]

/-- Parsing the serialization of a plain JSON value followed by a non-digit
returns the value. -/
theorem parseJValue_serialize (v : JValue) (rest : List Char)
    (hv : plainJValue v = true)
    (hr : ∀ c ∈ rest.head?, isDigitChar c = false) :
    parseJValue (serializeJValue v ++ rest) = some (v, rest) := by
  cases v with
  | jstr s =>
    have hps := parseJString_serialize s rest (by simpa [plainJValue] using hv)
    have h2 : serializeString s ++ rest = quoteChar :: (s.data ++ quoteChar :: rest) := by
      simp [serializeString]
    have h1 : serializeJValue (JValue.jstr s) ++ rest =
        quoteChar :: (s.data ++ quoteChar :: rest) := by
      simp [serializeJValue, serializeString]
    rw [h2] at hps
    rw [h1]
    simp [parseJValue, hps]
  | jint i =>
    by_cases hi : i < 0
    · have h1 : serializeJValue (JValue.jint i) ++ rest =
          minusChar :: (natToChars i.natAbs ++ rest) := by
        simp [serializeJValue, intToChars, if_pos hi]
      have hpn := parseNatChars_serialize i.natAbs rest hr
      rw [h1]
      simp only [parseJValue]
      rw [if_neg (by decide : ¬(minusChar = quoteChar))]
      have hab : -((i.natAbs : Nat) : Int) = i := by omega
      simp [hpn, hab]
      rw [abs_of_neg hi, neg_neg]
    · have h1 : serializeJValue (JValue.jint i) ++ rest = natToChars i.toNat ++ rest := by
        simp [serializeJValue, intToChars, if_neg hi]
      obtain ⟨c, cs, hcc⟩ : ∃ c cs, natToChars i.toNat = c :: cs := by
        cases h : natToChars i.toNat with
        | nil => exact absurd h (natToChars_ne_nil _)
        | cons c cs => exact ⟨c, cs, rfl⟩
      have hc : isDigitChar c = true := natToChars_digits _ c (by rw [hcc]; simp)
      have hq : ¬(c = quoteChar) := fun he => by
        rw [he] at hc
        exact absurd hc (by decide)
      have hm : ¬(c = minusChar) := fun he => by
        rw [he] at hc
        exact absurd hc (by decide)
      have hpn := parseNatChars_serialize i.toNat rest hr
      rw [hcc, List.cons_append] at hpn
      rw [h1, hcc, List.cons_append]
      simp only [parseJValue]
      rw [if_neg hq, if_neg hm, if_pos hc, hpn]
      have hab : ((i.toNat : Nat) : Int) = i := by omega
      simp [hab]
  | jbool b =>
    cases b with
    | true =>
      have h1 : serializeJValue (JValue.jbool true) ++ rest =
          't' :: (['r', 'u', 'e'] ++ rest) := by
        simp [serializeJValue, trueChars]
      have hs : stripLit trueChars ('t' :: (['r', 'u', 'e'] ++ rest)) = some rest := by
        simpa [trueChars] using stripLit_append trueChars rest
      rw [h1]
      simp only [parseJValue]
      rw [if_neg (by decide : ¬('t' = quoteChar)), if_neg (by decide : ¬('t' = minusChar)),
        if_neg (by decide : ¬(isDigitChar 't' = true)), hs]
    | false =>
      have h1 : serializeJValue (JValue.jbool false) ++ rest =
          'f' :: (['a', 'l', 's', 'e'] ++ rest) := by
        simp [serializeJValue, falseChars]
      have hs : stripLit falseChars ('f' :: (['a', 'l', 's', 'e'] ++ rest)) = some rest := by
        simpa [falseChars] using stripLit_append falseChars rest
      rw [h1]
      simp only [parseJValue]
      rw [if_neg (by decide : ¬('f' = quoteChar)), if_neg (by decide : ¬('f' = minusChar)),
        if_neg (by decide : ¬(isDigitChar 'f' = true)),
        show trueChars = 't' :: ['r', 'u', 'e'] from rfl,
        stripLit_ne 't' 'f' _ _ (by decide), hs]
  | jnull =>
    have h1 : serializeJValue JValue.jnull ++ rest = 'n' :: (['u', 'l', 'l'] ++ rest) := by
      simp [serializeJValue, nullChars]
    have hs : stripLit nullChars ('n' :: (['u', 'l', 'l'] ++ rest)) = some rest := by
      simpa [nullChars] using stripLit_append nullChars rest
    rw [h1]
    simp only [parseJValue]
    rw [if_neg (by decide : ¬('n' = quoteChar)), if_neg (by decide : ¬('n' = minusChar)),
      if_neg (by decide : ¬(isDigitChar 'n' = true)),
      show trueChars = 't' :: ['r', 'u', 'e'] from rfl,
      stripLit_ne 't' 'n' _ _ (by decide),
      show falseChars = 'f' :: ['a', 'l', 's', 'e'] from rfl,
      stripLit_ne 'f' 'n' _ _ (by decide), hs]

/-- A member list is no longer than its serialization. -/
theorem length_le_serializePairs (ps : List (String × JValue)) :
    ps.length ≤ (serializePairs ps).length := by
  induction ps with
  | nil => simp [serializePairs]
  | cons p ps ih =>
    cases ps with
    | nil =>
      have h2 : serializePairs [p] = serializePair p := by rfl
      rw [h2]
      simp only [serializePair, serializeString, List.length_append, List.length_cons,
        List.length_singleton, List.length_nil]
      omega
    | cons q qs =>
      have h2 : 1 ≤ (serializePair p).length := by
        simp only [serializePair, serializeString, List.length_append, List.length_cons]
        omega
      have h3 : serializePairs (p :: q :: qs) =
          serializePair p ++ commaChar :: serializePairs (q :: qs) := by rfl
      rw [h3]
      simp only [List.length_append, List.length_cons] at *
      omega

/-- A serialized non-empty member list starts with a quote. -/
theorem serializePairs_cons (p : String × JValue) (ps : List (String × JValue)) :
    ∃ t, serializePairs (p :: ps) = quoteChar :: t := by
  cases ps with
  | nil =>
    refine ⟨(p.1.data ++ [quoteChar]) ++ colonChar :: serializeJValue p.2, ?_⟩
    simp [serializePairs, serializePair, serializeString]
  | cons q qs =>
    refine ⟨(p.1.data ++ [quoteChar]) ++ colonChar :: (serializeJValue p.2 ++
      commaChar :: serializePairs (q :: qs)), ?_⟩
    simp [serializePairs, serializePair, serializeString]

/-- Parsing the serialization of a non-empty plain member list followed by
a closing brace returns the members. -/
theorem parsePairs_serialize (ps : List (String × JValue)) (tail : List Char) :
    ∀ fuel, ps.length ≤ fuel → ps ≠ [] →
      (∀ p ∈ ps, plainString p.1 = true ∧ plainJValue p.2 = true) →
      parsePairs fuel (serializePairs ps ++ rbraceChar :: tail) =
        some (ps, rbraceChar :: tail) := by
  induction ps with
  | nil =>
    intro fuel _ hne _
    exact absurd rfl hne
  | cons p ps ih =>
    intro fuel hf _ hwf
    cases fuel with
    | zero => simp at hf
    | succ fuel =>
      have hp := hwf p (by simp)
      cases ps with
      | nil =>
        have h1 : serializePairs [p] ++ rbraceChar :: tail =
            serializeString p.1 ++
              (colonChar :: (serializeJValue p.2 ++ rbraceChar :: tail)) := by
          simp [serializePairs, serializePair]
        have hstr := parseJString_serialize p.1
          (colonChar :: (serializeJValue p.2 ++ rbraceChar :: tail)) hp.1
        have hval := parseJValue_serialize p.2 (rbraceChar :: tail) hp.2
          (by intro c hc; simp at hc; subst hc; decide)
        rw [h1]
        simp [parsePairs, hstr, hval, show ¬(rbraceChar = commaChar) from by decide]
      | cons q qs =>
        have h1 : serializePairs (p :: q :: qs) ++ rbraceChar :: tail =
            serializeString p.1 ++ (colonChar :: (serializeJValue p.2 ++
              commaChar :: (serializePairs (q :: qs) ++ rbraceChar :: tail))) := by
          simp [serializePairs, serializePair]
        have hstr := parseJString_serialize p.1
          (colonChar :: (serializeJValue p.2 ++
            commaChar :: (serializePairs (q :: qs) ++ rbraceChar :: tail))) hp.1
        have hval := parseJValue_serialize p.2
          (commaChar :: (serializePairs (q :: qs) ++ rbraceChar :: tail)) hp.2
          (by intro c hc; simp at hc; subst hc; decide)
        have hrec := ih fuel (by simp at hf ⊢; omega) (by simp)
          (fun r hr => hwf r (by simp [hr]))
        rw [h1]
        simp [parsePairs, hstr, hval, hrec]

/-- Parsing the serialization of a well-formed event returns the event. -/
theorem parseEventChars_serialize (e : WebhookEvent) (hwf : wellFormedEvent e = true) :
    parseEventChars (serializeEvent e) = some e := by
  obtain ⟨ty, data⟩ := e
  simp only [wellFormedEvent, Bool.and_eq_true, List.all_eq_true] at hwf
  obtain ⟨hty, hdata⟩ := hwf
  have h1 : serializeEvent ⟨ty, data⟩ =
      ([lbraceChar] ++ typeKeyChars ++ [colonChar]) ++
        (serializeString ty ++
          (([commaChar] ++ dataKeyChars ++ [colonChar] ++ [lbraceChar]) ++
            (serializePairs data ++ [rbraceChar] ++ [rbraceChar]))) := by
    simp [serializeEvent]
  have hstr := parseJString_serialize ty
    (([commaChar] ++ dataKeyChars ++ [colonChar] ++ [lbraceChar]) ++
      (serializePairs data ++ [rbraceChar] ++ [rbraceChar])) hty
  rw [h1]
  simp only [parseEventChars, stripLit_append, hstr]
  cases data with
  | nil => simp [serializePairs]
  | cons p ps =>
    obtain ⟨t, ht⟩ := serializePairs_cons p ps
    have hlen2 : ¬(serializePairs (p :: ps) ++ [rbraceChar] ++ [rbraceChar] =
        [rbraceChar, rbraceChar]) := by
      intro he
      have := congrArg List.length he
      rw [ht] at this
      simp at this
    rw [if_neg hlen2]
    have hshape : serializePairs (p :: ps) ++ [rbraceChar] ++ [rbraceChar] =
        serializePairs (p :: ps) ++ rbraceChar :: [rbraceChar] := by
      simp
    have hpp := parsePairs_serialize (p :: ps) [rbraceChar]
      (serializePairs (p :: ps) ++ [rbraceChar] ++ [rbraceChar]).length
      (by
        have := length_le_serializePairs (p :: ps)
        simp only [List.length_append, List.length_singleton]
        simp only [List.length_cons] at this ⊢
        omega)
      (by simp)
      (fun r hr => ⟨(hdata r hr).1, (hdata r hr).2⟩)
    rw [hshape] at *
    rw [hpp]
    simp

/-! ## Claim theorems -/

/-- Claim C1: an outcome is retry-eligible exactly when the call errored or
the status is at least 500; attempts are capped at one plus the configured
retry count; the backoff wait is non-decreasing and bounded by the 10 s
ceiling; and a 4xx response is not retried (a first-attempt 4xx response
ends the loop after a single attempt). -/
theorem retry_policy_spec (a : Attempt) (rc : Nat) (f : Nat → Attempt)
    (base : Int) (hbase : 0 ≤ base) (m n : Nat) (hmn : m ≤ n) :
    (retryCondition a = true ↔ (a.netErr.isSome = true ∨ 500 ≤ a.statusCode))
    ∧ (executeWithRetry rc f).1 ≤ rc + 1
    ∧ backoffWait base m ≤ backoffWait base n
    ∧ backoffWait base n ≤ restyMaxWaitTime
    ∧ (a.netErr = none → 400 ≤ a.statusCode → a.statusCode ≤ 499 →
        retryCondition a = false)
    ∧ ((f 0).netErr = none → 400 ≤ (f 0).statusCode → (f 0).statusCode ≤ 499 →
        (executeWithRetry rc f).1 = 1) := by
  refine ⟨?_, ?_, ?_, ?_, ?_, ?_⟩
  · simp [retryCondition]
  · simpa [executeWithRetry] using runRetry_fst_le f rc 0
  · unfold backoffWait
    have h2 : base * 2 ^ m ≤ base * 2 ^ n := by
      gcongr
      norm_num
    exact min_le_min h2 le_rfl
  · exact min_le_right _ _
  · intro h1 h2 h3
    simp only [retryCondition, h1, Option.isSome_none, Bool.false_or]
    simpa using by omega
  · intro h1 h2 h3
    have hc : retryCondition (f 0) = false := by
      simp only [retryCondition, h1, Option.isSome_none, Bool.false_or]
      simpa using by omega
    simp [executeWithRetry, runRetry_stop f rc 0 hc]

/-- Witness for C1 at a concrete 404 outcome, three retries, base wait 1 s
and wait indices 1 ≤ 2. -/
theorem retry_policy_spec_witness :
    (0 : Int) ≤ nsPerSecond ∧ (1 : Nat) ≤ 2 ∧
    ((retryCondition attempt404 = true ↔
        (attempt404.netErr.isSome = true ∨ 500 ≤ attempt404.statusCode))
    ∧ (executeWithRetry 3 (fun _ => attempt404)).1 ≤ 3 + 1
    ∧ backoffWait nsPerSecond 1 ≤ backoffWait nsPerSecond 2
    ∧ backoffWait nsPerSecond 2 ≤ restyMaxWaitTime
    ∧ (attempt404.netErr = none → 400 ≤ attempt404.statusCode →
        attempt404.statusCode ≤ 499 → retryCondition attempt404 = false)
    ∧ (((fun _ => attempt404) 0).netErr = none →
        400 ≤ ((fun _ => attempt404) 0).statusCode →
        ((fun _ => attempt404) 0).statusCode ≤ 499 →
        (executeWithRetry 3 (fun _ => attempt404)).1 = 1)) :=
  ⟨by decide, by decide,
    retry_policy_spec attempt404 3 (fun _ => attempt404) nsPerSecond (by decide) 1 2 (by decide)⟩

/-- Claim C2: on an error-flagged response the decoded structured APIError
is surfaced when its message is non-empty, otherwise the generic error
carrying the raw status code; a 2xx response yields no error — for both
Request and Get tails. -/
theorem error_precedence_spec (r : Attempt) (hnet : r.netErr = none) :
    (respIsError r = true → r.errBody.message ≠ "" →
        finishRequest r = some (RequestError.api r.errBody)
        ∧ finishGet r = some (RequestError.api r.errBody))
    ∧ (respIsError r = true → r.errBody.message = "" →
        finishRequest r = some (RequestError.generic r.statusCode r.statusText)
        ∧ finishGet r = some (RequestError.genericGet r.statusCode))
    ∧ (200 ≤ r.statusCode → r.statusCode ≤ 299 →
        finishRequest r = none ∧ finishGet r = none) := by
  refine ⟨?_, ?_, ?_⟩
  · intro h1 h2
    simp [finishRequest, finishGet, hnet, h1, h2]
  · intro h1 h2
    simp [finishRequest, finishGet, hnet, h1, h2]
  · intro h1 h2
    have hns : respIsError r = false := by
      simp only [respIsError]
      simpa using by omega
    simp [finishRequest, finishGet, hnet, hns]

/-- Witness for C2 at a 404 with a populated message, a 404 with an empty
message, and a 200. -/
theorem error_precedence_spec_witness :
    (finishRequest { statusCode := 404, errBody := { message := "missing" } } =
        some (RequestError.api { message := "missing" })
      ∧ finishGet { statusCode := 404, errBody := { message := "missing" } } =
        some (RequestError.api { message := "missing" }))
    ∧ (finishRequest { statusCode := 404, statusText := "404 Not Found" } =
        some (RequestError.generic 404 "404 Not Found")
      ∧ finishGet { statusCode := 404, statusText := "404 Not Found" } =
        some (RequestError.genericGet 404))
    ∧ (finishRequest { statusCode := 200 } = none ∧ finishGet { statusCode := 200 } = none) :=
  ⟨(error_precedence_spec { statusCode := 404, errBody := { message := "missing" } } rfl).1
      (by decide) (by decide),
   (error_precedence_spec { statusCode := 404, statusText := "404 Not Found" } rfl).2.1
      (by decide) (by decide),
   (error_precedence_spec { statusCode := 200 } rfl).2.2 (by decide) (by decide)⟩

/-- Claim C4: a successful authenticate (or refresh) carrying token tok123
stores it so later requests send the bearer header, and a failed call — or
one returning no token — leaves the stored session token untouched. -/
theorem auth_mutation_spec (c c2 : Client) (err err2 : Option String)
    (resp resp2 : AuthResponse) :
    (err = none → resp.token = "tok123" →
      (Authenticate c err resp).authToken = "tok123"
      ∧ ("Authorization", "Bearer tok123") ∈
          requestHeaders (Authenticate c err resp).httpClient)
    ∧ (err2 ≠ none → Authenticate c2 err2 resp2 = c2 ∧ Refresh c2 err2 resp2 = c2)
    ∧ (resp2.token = "" → Authenticate c2 err2 resp2 = c2 ∧ Refresh c2 err2 resp2 = c2) := by
  refine ⟨?_, ?_, ?_⟩
  · intro h1 h2
    have ha : Authenticate c err resp = SetAuthToken c "tok123" := by
      simp [Authenticate, h1, h2]
    rw [ha]
    refine ⟨rfl, ?_⟩
    simp only [SetAuthToken, requestHeaders]
    refine List.mem_append_right _ ?_
    simp only [ne_eq]
    rw [if_pos (by decide)]
    simp
  · intro h
    constructor <;> simp [Authenticate, Refresh, h]
  · intro h
    constructor <;> simp [Authenticate, Refresh, h]

/-- Witness for C4: a fresh production client, a successful authenticate
with tok123, then a failed one and an empty-token one. -/
theorem auth_mutation_spec_witness :
    ((Authenticate (NewClient "k") none { token := "tok123" }).authToken = "tok123"
      ∧ ("Authorization", "Bearer tok123") ∈
          requestHeaders (Authenticate (NewClient "k") none { token := "tok123" }).httpClient)
    ∧ (Authenticate (Authenticate (NewClient "k") none { token := "tok123" })
          (some "boom") { token := "other" } =
        Authenticate (NewClient "k") none { token := "tok123" }
      ∧ Refresh (Authenticate (NewClient "k") none { token := "tok123" })
          (some "boom") { token := "other" } =
        Authenticate (NewClient "k") none { token := "tok123" })
    ∧ (Authenticate (Authenticate (NewClient "k") none { token := "tok123" })
          none { token := "" } =
        Authenticate (NewClient "k") none { token := "tok123" }
      ∧ Refresh (Authenticate (NewClient "k") none { token := "tok123" })
          none { token := "" } =
        Authenticate (NewClient "k") none { token := "tok123" }) :=
  ⟨(auth_mutation_spec (NewClient "k") (NewClient "k") none none
      { token := "tok123" } { token := "tok123" }).1 rfl rfl,
   (auth_mutation_spec (NewClient "k") (Authenticate (NewClient "k") none { token := "tok123" })
      none (some "boom") { token := "tok123" } { token := "other" }).2.1 (by decide),
   (auth_mutation_spec (NewClient "k") (Authenticate (NewClient "k") none { token := "tok123" })
      none none { token := "tok123" } { token := "" }).2.2 rfl⟩

/-- Claim C5: unset optional fields receive the fixed defaults — 30 s
timeout, 3 retries, 1 s base wait, production (or testnet) base URL — and
the base URL is never empty after construction. -/
theorem defaults_spec (cfg : Config) :
    (cfg.timeout = 0 → (NewClientWithConfig cfg).config.timeout = DefaultTimeout)
    ∧ (cfg.maxRetries = 0 → (NewClientWithConfig cfg).config.maxRetries = DefaultMaxRetries)
    ∧ (cfg.retryWaitTime = 0 → (NewClientWithConfig cfg).config.retryWaitTime = nsPerSecond)
    ∧ (cfg.baseURL = "" → (cfg.environment = "" ∨ cfg.environment = Production) →
        (NewClientWithConfig cfg).config.baseURL = ProductionBaseURL)
    ∧ (cfg.baseURL = "" → cfg.environment = Testnet →
        (NewClientWithConfig cfg).config.baseURL = TestnetBaseURL)
    ∧ (NewClientWithConfig cfg).config.baseURL ≠ "" := by
  simp only [config_NewClientWithConfig]
  refine ⟨?_, ?_, ?_, ?_, ?_, applyDefaults_baseURL_ne cfg⟩
  · intro h; simp [applyDefaults_timeout, h]
  · intro h; simp [applyDefaults_maxRetries, h]
  · intro h; simp [applyDefaults_retryWaitTime, h]
  · exact fun hb he => applyDefaults_baseURL_prod cfg hb he
  · exact fun hb he => applyDefaults_baseURL_testnet cfg hb he

/-- Witness for C5 at the all-unset configuration and at a bare testnet
configuration. -/
theorem defaults_spec_witness :
    (NewClientWithConfig {}).config.timeout = DefaultTimeout
    ∧ (NewClientWithConfig {}).config.maxRetries = DefaultMaxRetries
    ∧ (NewClientWithConfig {}).config.retryWaitTime = nsPerSecond
    ∧ (NewClientWithConfig {}).config.baseURL = ProductionBaseURL
    ∧ (NewClientWithConfig { environment := Testnet }).config.baseURL = TestnetBaseURL
    ∧ (NewClientWithConfig {}).config.baseURL ≠ "" :=
  ⟨(defaults_spec {}).1 rfl, (defaults_spec {}).2.1 rfl, (defaults_spec {}).2.2.1 rfl,
   (defaults_spec {}).2.2.2.1 rfl (Or.inl rfl),
   (defaults_spec { environment := Testnet }).2.2.2.2.1 rfl rfl,
   (defaults_spec {}).2.2.2.2.2⟩

/-- Claim C6: every request carries the User-Agent, Accept and Content-Type
headers; the X-API-Key header is attached exactly when an API key was
configured; a set bearer token is sent as the Authorization header; with an
empty API key no X-API-Key header exists and the default base URL is the
production endpoint. -/
theorem headers_spec (cfg : Config) (token : String) :
    ("User-Agent", "XRPL.Sale-Go-SDK/" ++ Version) ∈
        requestHeaders (NewClientWithConfig cfg).httpClient
    ∧ ("Accept", "application/json") ∈ requestHeaders (NewClientWithConfig cfg).httpClient
    ∧ ("Content-Type", "application/json") ∈
        requestHeaders (NewClientWithConfig cfg).httpClient
    ∧ (cfg.apiKey ≠ "" →
        ("X-API-Key", cfg.apiKey) ∈ requestHeaders (NewClientWithConfig cfg).httpClient)
    ∧ (token ≠ "" → ("Authorization", "Bearer " ++ token) ∈
        requestHeaders (SetAuthToken (NewClientWithConfig cfg) token).httpClient)
    ∧ (cfg.apiKey = "" → "X-API-Key" ∉
        (requestHeaders (SetAuthToken (NewClientWithConfig cfg) token).httpClient).map Prod.fst)
    ∧ (NewClient "").config.baseURL = ProductionBaseURL := by
  refine ⟨?_, ?_, ?_, ?_, ?_, ?_, ?_⟩
  · simp [requestHeaders, headers_NewClientWithConfig, authToken_NewClientWithConfig,
      defaultHeaders]
  · simp [requestHeaders, headers_NewClientWithConfig, authToken_NewClientWithConfig,
      defaultHeaders]
  · simp [requestHeaders, headers_NewClientWithConfig, authToken_NewClientWithConfig,
      defaultHeaders]
  · intro h
    simp [requestHeaders, headers_NewClientWithConfig, authToken_NewClientWithConfig, h]
  · intro h
    simp [requestHeaders, SetAuthToken, headers_NewClientWithConfig, h]
  · intro h
    by_cases ht : token = "" <;>
      simp [requestHeaders, SetAuthToken, headers_NewClientWithConfig, h, ht, defaultHeaders]
  · exact (defaults_spec { apiKey := "", environment := Production }).2.2.2.1 rfl (Or.inr rfl)

/-- Witness for C6 at an API-keyed client with token tok and at a keyless
client. -/
theorem headers_spec_witness :
    ("User-Agent", "XRPL.Sale-Go-SDK/" ++ Version) ∈
        requestHeaders (NewClientWithConfig { apiKey := "k" }).httpClient
    ∧ ("X-API-Key", "k") ∈ requestHeaders (NewClientWithConfig { apiKey := "k" }).httpClient
    ∧ ("Authorization", "Bearer tok") ∈
        requestHeaders (SetAuthToken (NewClientWithConfig { apiKey := "k" }) "tok").httpClient
    ∧ "X-API-Key" ∉
        (requestHeaders (SetAuthToken (NewClientWithConfig {}) "tok").httpClient).map Prod.fst
    ∧ (NewClient "").config.baseURL = ProductionBaseURL :=
  ⟨(headers_spec { apiKey := "k" } "tok").1,
   (headers_spec { apiKey := "k" } "tok").2.2.2.1 (by decide),
   (headers_spec { apiKey := "k" } "tok").2.2.2.2.1 (by decide),
   (headers_spec {} "tok").2.2.2.2.2.1 rfl,
   (headers_spec {} "tok").2.2.2.2.2.2⟩

/-- Claim C7: a verb outside GET, POST, PUT, PATCH, DELETE makes Request
fail at once with the unsupported-method error, with zero network attempts
and hence no retries. -/
theorem unsupported_method_spec (c : Client) (method : String) (f : Nat → Attempt)
    (h : method ∉ supportedMethods) :
    Request c method f = (0, some (RequestError.unsupportedMethod method)) := by
  simp [Request, h]

/-- Witness for C7 at the verb HEAD. -/
theorem unsupported_method_spec_witness :
    Request {} "HEAD" (fun _ => attempt404) =
      (0, some (RequestError.unsupportedMethod "HEAD")) :=
  unsupported_method_spec {} "HEAD" (fun _ => attempt404) (by decide)

set_option maxRecDepth 10000 in
/-- Claim C3: verification succeeds exactly when a non-empty secret is
configured and the signature is the sha256= scheme tag followed by the hex
HMAC-SHA256 of the payload under that secret; hence verify of sign under
the same secret succeeds, no configured secret always yields false (the
function is total, never panicking), and at concrete inputs a differing
secret or a one-byte payload change is rejected. -/
theorem webhook_signature_spec (c : Client) (payload : List Nat) (sig : String)
    (secret : String) (hsec : secret ≠ "") :
    (VerifyWebhookSignature c payload sig = true ↔
      (c.config.webhookSecret ≠ ""
        ∧ sig = signWebhookPayload c.config.webhookSecret payload))
    ∧ (c.config.webhookSecret = secret →
        VerifyWebhookSignature c payload (signWebhookPayload secret payload) = true)
    ∧ (c.config.webhookSecret = "" → VerifyWebhookSignature c payload sig = false)
    ∧ VerifyWebhookSignature (NewClientWithConfig { webhookSecret := "test-secret" })
        [97, 98, 99] (signWebhookPayload "other-secret" [97, 98, 99]) = false
    ∧ VerifyWebhookSignature (NewClientWithConfig { webhookSecret := "test-secret" })
        [97, 98, 100] (signWebhookPayload "test-secret" [97, 98, 99]) = false := by
  refine ⟨?_, ?_, ?_, by decide, by decide⟩
  · unfold VerifyWebhookSignature
    by_cases h : c.config.webhookSecret = ""
    · simp [h]
    · rw [if_neg h]
      constructor
      · intro hb
        exact ⟨h, (eq_of_beq hb).symm⟩
      · intro hb
        rw [hb.2]
        exact beq_self_eq_true _
  · intro h
    simp [VerifyWebhookSignature, h, hsec]
  · intro h
    simp [VerifyWebhookSignature, h]

set_option maxRecDepth 10000 in
/-- Witness for C3: a client configured with test-secret accepts the
signature computed over the same payload with the same secret. -/
theorem webhook_signature_spec_witness :
    VerifyWebhookSignature (NewClientWithConfig { webhookSecret := "test-secret" })
      [97, 98, 99] (signWebhookPayload "test-secret" [97, 98, 99]) = true :=
  (webhook_signature_spec (NewClientWithConfig { webhookSecret := "test-secret" })
    [97, 98, 99] "" "test-secret" (by decide)).2.1 (by decide)

/-- Claim C8: parsing the serialization of a well-formed webhook event
returns an event equal to the original, and a payload that does not decode
yields the decoding error — never a silently defaulted event value (shown
also at a concrete malformed payload). -/
theorem webhook_roundtrip_spec (e : WebhookEvent) (p : List Char)
    (hwf : wellFormedEvent e = true) :
    ParseWebhookEvent (serializeEvent e) = Except.ok e
    ∧ (parseEventChars p = none → ParseWebhookEvent p = Except.error jsonDecodeErr)
    ∧ ParseWebhookEvent ("not json".data) = Except.error jsonDecodeErr := by
  refine ⟨?_, ?_, by rfl⟩
  · simp [ParseWebhookEvent, parseEventChars_serialize e hwf]
  · intro h
    simp [ParseWebhookEvent, h]

/-- Witness for C8 at a four-member sample event and the empty payload. -/
theorem webhook_roundtrip_spec_witness :
    wellFormedEvent sampleEvent = true
    ∧ ParseWebhookEvent (serializeEvent sampleEvent) = Except.ok sampleEvent
    ∧ ParseWebhookEvent [] = Except.error jsonDecodeErr :=
  ⟨by decide, (webhook_roundtrip_spec sampleEvent [] (by decide)).1,
   (webhook_roundtrip_spec sampleEvent [] (by decide)).2.1 (by decide)⟩

/-- Claim C9: the projects List call with status active, page 1, limit 10
sends exactly those three query parameters, and zero or empty option
fields are never included. -/
theorem list_params_spec (o : ListProjectsOptions) :
    projectsListParams (some { status := "active", page := 1, limit := 10 }) =
      [("status", "active"), ("page", "1"), ("limit", "10")]
    ∧ (o.status = "" → "status" ∉ (projectsListParams (some o)).map Prod.fst)
    ∧ (o.page ≤ 0 → "page" ∉ (projectsListParams (some o)).map Prod.fst)
    ∧ (o.limit ≤ 0 → "limit" ∉ (projectsListParams (some o)).map Prod.fst)
    ∧ (o.sortBy = "" → "sort_by" ∉ (projectsListParams (some o)).map Prod.fst)
    ∧ (o.sortOrder = "" → "sort_order" ∉ (projectsListParams (some o)).map Prod.fst) := by
  refine ⟨by decide, ?_, ?_, ?_, ?_, ?_⟩ <;>
    · intro h
      simp only [projectsListParams, h]
      split_ifs <;> simp_all <;> omega

/-- Witness for C9 at the scenario options with everything else unset. -/
theorem list_params_spec_witness :
    projectsListParams (some { status := "active", page := 1, limit := 10 }) =
      [("status", "active"), ("page", "1"), ("limit", "10")]
    ∧ "sort_by" ∉ (projectsListParams
        (some { status := "active", page := 1, limit := 10 })).map Prod.fst :=
  ⟨(list_params_spec { status := "active", page := 1, limit := 10 }).1,
   (list_params_spec { status := "active", page := 1, limit := 10 }).2.2.2.2.1 rfl⟩

/-- Claim C10: an explicit zero for MaxRetries, Timeout or RetryWaitTime is
replaced by the default exactly as an unset field is, so retries cannot be
disabled by passing MaxRetries = 0; a zeroed MaxRetries yields the same
client as the default value 3. -/
theorem zero_defaults_spec (cfg : Config) :
    (cfg.maxRetries = 0 →
      (NewClientWithConfig cfg).config.maxRetries = DefaultMaxRetries
      ∧ (NewClientWithConfig cfg).httpClient.retryCount = DefaultMaxRetries
      ∧ (NewClientWithConfig cfg).httpClient.retryCount ≠ 0)
    ∧ (cfg.timeout = 0 →
      (NewClientWithConfig cfg).config.timeout = DefaultTimeout
      ∧ (NewClientWithConfig cfg).httpClient.timeout = DefaultTimeout)
    ∧ (cfg.retryWaitTime = 0 →
      (NewClientWithConfig cfg).config.retryWaitTime = nsPerSecond
      ∧ (NewClientWithConfig cfg).httpClient.retryWaitTime = nsPerSecond)
    ∧ NewClientWithConfig { cfg with maxRetries := 0 } =
        NewClientWithConfig { cfg with maxRetries := DefaultMaxRetries } := by
  refine ⟨?_, ?_, ?_, ?_⟩
  · intro h
    refine ⟨?_, ?_, ?_⟩ <;>
      simp [config_NewClientWithConfig, retryCount_NewClientWithConfig,
        applyDefaults_maxRetries, h, DefaultMaxRetries]
  · intro h
    constructor <;>
      simp [config_NewClientWithConfig, timeout_NewClientWithConfig,
        applyDefaults_timeout, h]
  · intro h
    constructor <;>
      simp [config_NewClientWithConfig, retryWaitTime_NewClientWithConfig,
        applyDefaults_retryWaitTime, h]
  · simp [NewClientWithConfig_eq, applyDefaults_eq, DefaultMaxRetries]

/-- Witness for C10 at an explicit all-zero configuration. -/
theorem zero_defaults_spec_witness :
    ((NewClientWithConfig { maxRetries := 0 }).config.maxRetries = DefaultMaxRetries
      ∧ (NewClientWithConfig { maxRetries := 0 }).httpClient.retryCount = DefaultMaxRetries
      ∧ (NewClientWithConfig { maxRetries := 0 }).httpClient.retryCount ≠ 0)
    ∧ ((NewClientWithConfig { timeout := 0 }).config.timeout = DefaultTimeout)
    ∧ ((NewClientWithConfig { retryWaitTime := 0 }).config.retryWaitTime = nsPerSecond)
    ∧ NewClientWithConfig { maxRetries := 0 } = NewClientWithConfig { maxRetries := 3 } :=
  ⟨(zero_defaults_spec { maxRetries := 0 }).1 rfl,
   ((zero_defaults_spec { timeout := 0 }).2.1 rfl).1,
   ((zero_defaults_spec { retryWaitTime := 0 }).2.2.1 rfl).1,
   (zero_defaults_spec {}).2.2.2⟩

end XrplSale
